import Mathlib

/-!
Verification of `TkUtils/dialogs.py` and `Utils/Timer.py` (schleising/PythonTools).

The Python modules are shallowly embedded below. Tk widget side effects are
modelled as explicit data: grid placements, row/column configurations and
rendered cells become fields of result structures; the widget tree is a forest
of `Widget` nodes on which `destroy` acts; printed output and the current
`time.time()` reading are threaded through an `ExecState`. Fallible Python
operations return `Except`/`PyResult` values.
-/

namespace PythonTools

/-- A Python exception relevant to this code base. -/
inductive PyError where
  | valueError
  | typeError
deriving Repr, DecidableEq

/-! ## The Tk widget tree and `destroy` -/

/-- A widget in the Tk widget tree: an id together with its child widgets. -/
inductive Widget where
  | node (wid : Nat) (children : List Widget)

/-- The id of a widget. -/
def Widget.wid : Widget → Nat
  | .node w _ => w

mutual
/-- Tk `destroy` inside one subtree: removes the descendant subtree rooted at
the widget whose id is `t`; returns `none` when the root itself is `t`. -/
def Widget.destroy (t : Nat) : Widget → Option Widget
  | .node w cs => if w = t then none else some (.node w (Widget.destroyForest t cs))

/-- Tk `destroy` across a forest of widgets: the subtree rooted at the widget
whose id is `t` disappears, everything else is kept. -/
def Widget.destroyForest (t : Nat) : List Widget → List Widget
  | [] => []
  | c :: cs =>
      match Widget.destroy t c with
      | none => Widget.destroyForest t cs
      | some c' => c' :: Widget.destroyForest t cs
end

/-! ## `DialogBase.__init__`, `run`, `onClose` -/

/-- The dialog's recorded `self.parent`: either the caller-supplied parent
widget (embedded mode) or the `tk.Tk()` root window the constructor created
(standalone mode), carrying the title and minimum size that were set on it. -/
inductive ParentRef where
  | given (wid : Nat)
  | newTk (wid : Nat) (title : String) (minWidth minHeight : Nat)
deriving Repr, DecidableEq

/-- The widget id of the recorded parent. -/
def ParentRef.wid : ParentRef → Nat
  | .given w => w
  | .newTk w _ _ _ => w

/-- A `grid(...)` placement of the dialog frame. -/
structure GridPlace where
  row : Int
  column : Int
  padx : Nat
  pady : Nat
deriving Repr, DecidableEq

/-- State established by `DialogBase.__init__` before the abstract `body` call:
whether the dialog is standalone, the recorded parent, the frame's grid
placement, and the `columnconfigure`/`rowconfigure` weights applied to the
parent. -/
structure DialogBaseState where
  standalone : Bool
  parent : ParentRef
  grid : GridPlace
  parentColumnConfig : Int × Nat
  parentRowConfig : Int × Nat
deriving Repr, DecidableEq

/-- Embedding of `DialogBase.__init__` (dialogs.py lines 24-64), up to the
`body()` call. `newWid` stands for the widget id `tk.Tk()` would allocate if a
standalone window is created; it is unused in embedded mode. -/
def DialogBase.init (title : String) (newWid : Nat)
    (parent : Option Nat) (row column : Option Int) : DialogBaseState :=
  match parent, row, column with
  | some p, some r, some c =>
      { standalone := false
        parent := .given p
        grid := { row := r, column := c, padx := 5, pady := 5 }
        parentColumnConfig := (c, 1)
        parentRowConfig := (r, 1) }
  | _, _, _ =>
      { standalone := true
        parent := .newTk newWid title 1024 768
        grid := { row := 0, column := 0, padx := 10, pady := 3 }
        parentColumnConfig := (0, 1)
        parentRowConfig := (0, 1) }

/-- Embedding of `DialogBase.onClose` (dialogs.py lines 81-84):
`self.parent.destroy()` removes the recorded parent widget and all of its
descendants from the widget tree. -/
def DialogBase.onClose (st : DialogBaseState) (tree : List Widget) : List Widget :=
  Widget.destroyForest st.parent.wid tree

/-- C1: dialog placement selection is a total function of the optional
constructor arguments: the dialog is embedded (`standalone = false`) iff all
three of parent, row and column are provided; any other combination selects
standalone mode, in which a new top-level window is created with the given
title and the 1024×768 minimum size. -/
theorem dialog_placement_total (title : String) (newWid : Nat)
    (parent : Option Nat) (row column : Option Int) :
    ((DialogBase.init title newWid parent row column).standalone = false
        ↔ parent.isSome ∧ row.isSome ∧ column.isSome)
    ∧ ((DialogBase.init title newWid parent row column).standalone = true →
        (DialogBase.init title newWid parent row column).parent
          = ParentRef.newTk newWid title 1024 768) := by
  rcases parent with _ | p <;> rcases row with _ | r <;> rcases column with _ | c <;>
    simp [DialogBase.init]

/-- Witness for C1: with parent provided but row and column omitted, the dialog
is standalone and a new window with the title and minimum size is created. -/
theorem dialog_placement_total_witness :
    ((DialogBase.init "Title" 7 (some 1) none none).standalone = false
        ↔ (some 1 : Option Nat).isSome ∧ (none : Option Int).isSome
            ∧ (none : Option Int).isSome)
    ∧ ((DialogBase.init "Title" 7 (some 1) none none).standalone = true →
        (DialogBase.init "Title" 7 (some 1) none none).parent
          = ParentRef.newTk 7 "Title" 1024 768) :=
  dialog_placement_total "Title" 7 (some 1) none none

/-! ## `KeyValDialog.body` -/

/-- The command wired to a button's `command=` argument. -/
inductive BtnCommand where
  | onClose
deriving Repr, DecidableEq

/-- A widget placed by `KeyValDialog.body` into the dialog frame's grid: either
a labelled cell or the Close button with its command. -/
inductive KVCell where
  | label (row : Nat) (column : Nat) (text : String)
  | closeButton (row : Nat) (column : Nat) (command : BtnCommand)
deriving Repr, DecidableEq

/-- A `rowconfigure(row, weight, minsize)` call recorded by the embedding. -/
structure RowConfig where
  row : Nat
  weight : Nat
  minsize : Nat
deriving Repr, DecidableEq

/-- A `columnconfigure(column, weight, minsize)` call recorded by the
embedding. -/
structure ColumnConfig where
  column : Nat
  weight : Nat
  minsize : Nat
deriving Repr, DecidableEq

/-- Everything `KeyValDialog.body` lays out: the placed cells in creation
order, and the row/column configurations applied to the frame. -/
structure KeyValBody where
  cells : List KVCell
  rowConfigs : List RowConfig
  columnConfigs : List ColumnConfig
deriving Repr, DecidableEq

/-- The `for count, (label, value) in enumerate(self.labels.items())` loop of
`KeyValDialog.body` (dialogs.py lines 109-127): each iteration places the
label at `(count, 0)`, the value at `(count, 1)` and configures the row. -/
def KeyValDialog.bodyLoop (labels : List (String × String)) (count : Nat)
    (acc : KeyValBody) : KeyValBody :=
  match labels with
  | [] => acc
  | (label, value) :: rest =>
      KeyValDialog.bodyLoop rest (count + 1)
        { acc with
          cells := acc.cells ++ [.label count 0 label, .label count 1 value]
          rowConfigs := acc.rowConfigs ++ [⟨count, 1, 26⟩] }

/-- Embedding of `KeyValDialog.body` (dialogs.py lines 105-146): run the row
loop, configure the fixed-width left column and the expanding right column,
then append a Close row wired to `onClose` iff the dialog is standalone. -/
def KeyValDialog.body (labels : List (String × String)) (standalone : Bool) :
    KeyValBody :=
  let looped := KeyValDialog.bodyLoop labels 0 ⟨[], [], []⟩
  let withCols :=
    { looped with
      columnConfigs := looped.columnConfigs ++ [⟨0, 0, 150⟩, ⟨1, 1, 150⟩] }
  if standalone then
    { withCols with
      cells := withCols.cells ++ [.closeButton labels.length 1 .onClose]
      rowConfigs := withCols.rowConfigs ++ [⟨labels.length, 1, 26⟩] }
  else withCols

/-- The two cells the loop renders for the entry `(label, value)` at row `i`. -/
def KeyValDialog.entryCells (p : Nat × (String × String)) : List KVCell :=
  [.label p.1 0 p.2.1, .label p.1 1 p.2.2]

theorem KeyValDialog.bodyLoop_cells (labels : List (String × String))
    (count : Nat) (acc : KeyValBody) :
    (KeyValDialog.bodyLoop labels count acc).cells
      = acc.cells ++ ((labels.enumFrom count).map KeyValDialog.entryCells).flatten := by
  induction labels generalizing count acc with
  | nil => simp [KeyValDialog.bodyLoop]
  | cons lv rest ih =>
      obtain ⟨label, value⟩ := lv
      simp [KeyValDialog.bodyLoop, ih, List.enumFrom, KeyValDialog.entryCells]

theorem KeyValDialog.bodyLoop_rowConfigs (labels : List (String × String))
    (count : Nat) (acc : KeyValBody) :
    (KeyValDialog.bodyLoop labels count acc).rowConfigs
      = acc.rowConfigs
          ++ (labels.enumFrom count).map (fun p => (⟨p.1, 1, 26⟩ : RowConfig)) := by
  induction labels generalizing count acc with
  | nil => simp [KeyValDialog.bodyLoop]
  | cons lv rest ih =>
      obtain ⟨label, value⟩ := lv
      simp [KeyValDialog.bodyLoop, ih, List.enumFrom]

theorem KeyValDialog.bodyLoop_columnConfigs (labels : List (String × String))
    (count : Nat) (acc : KeyValBody) :
    (KeyValDialog.bodyLoop labels count acc).columnConfigs = acc.columnConfigs := by
  induction labels generalizing count acc with
  | nil => simp [KeyValDialog.bodyLoop]
  | cons lv rest ih =>
      obtain ⟨label, value⟩ := lv
      simp [KeyValDialog.bodyLoop, ih]

/-- C5: the key/value body renders exactly one two-column row per entry of the
map, in insertion order — entry `i` puts its label at `(i, 0)` and its value at
`(i, 1)` — and configures column 0 fixed (weight 0, minsize 150) and column 1
expanding (weight 1, minsize 150). -/
theorem keyval_rows_in_order (labels : List (String × String)) (standalone : Bool) :
    ((KeyValDialog.body labels standalone).cells
        = (labels.enum.map KeyValDialog.entryCells).flatten
            ++ (if standalone then [KVCell.closeButton labels.length 1 .onClose]
                else []))
    ∧ (KeyValDialog.body labels standalone).columnConfigs
        = [⟨0, 0, 150⟩, ⟨1, 1, 150⟩] := by
  have hc := KeyValDialog.bodyLoop_cells labels 0 ⟨[], [], []⟩
  have hcc := KeyValDialog.bodyLoop_columnConfigs labels 0 ⟨[], [], []⟩
  cases standalone <;>
    simp_all [KeyValDialog.body, List.enum]

/-- C6: the Close row, wired to the base close operation, is appended after all
data cells exactly when the dialog is standalone — at row index `labels.length`
— and an empty map in a standalone dialog yields no data cells and the Close
button at row index 0. -/
theorem keyval_close_iff_standalone (labels : List (String × String)) :
    ((KeyValDialog.body labels true).cells
        = (labels.enum.map KeyValDialog.entryCells).flatten
            ++ [KVCell.closeButton labels.length 1 .onClose])
    ∧ ((KeyValDialog.body labels false).cells
        = (labels.enum.map KeyValDialog.entryCells).flatten)
    ∧ (KeyValDialog.body [] true).cells = [KVCell.closeButton 0 1 .onClose] := by
  have h1 := KeyValDialog.bodyLoop_cells labels 0 ⟨[], [], []⟩
  refine ⟨?_, ?_, ?_⟩ <;>
    simp_all [KeyValDialog.body, List.enum, KeyValDialog.bodyLoop]

/-! ## `TreeViewDialog` -/

/-- A two-level hierarchy as passed to the tree dialog: outer key to ordered
inner (label, value) pairs, in insertion order. -/
def Hierarchy : Type := List (String × List (String × String))

/-- A child row of the tree view: its text and its displayed values (the
source passes `values=[val]`). -/
structure ChildRow where
  text : String
  values : List String
deriving Repr, DecidableEq

/-- A top-level row of the tree view: the tk item id, the displayed text,
whether the row was inserted open, and its child rows in order. -/
structure TreeRow where
  iid : Nat
  text : String
  openNode : Bool
  children : List ChildRow
deriving Repr, DecidableEq

/-- Tk `Treeview.get_children()`: the ids of the top-level rows. -/
def Treeview.get_children (rows : List TreeRow) : List Nat :=
  rows.map (·.iid)

/-- Tk `Treeview.delete(*iids)`: removes each listed top-level item together
with its children. -/
def Treeview.delete (rows : List TreeRow) (iids : List Nat) : List TreeRow :=
  rows.filter (fun r => ! iids.contains r.iid)

/-- Tk `Treeview.insert('', END, ...)`: appends a new childless top-level row
with the given id, text and open flag. -/
def Treeview.insertTop (rows : List TreeRow) (iid : Nat) (text : String)
    (openNode : Bool) : List TreeRow :=
  rows ++ [{ iid := iid, text := text, openNode := openNode, children := [] }]

/-- Tk `Treeview.insert(parent, END, ...)`: appends a child row with the given
text and values to the top-level row whose id is `parentIid`. -/
def Treeview.insertChild (rows : List TreeRow) (parentIid : Nat) (text : String)
    (values : List String) : List TreeRow :=
  rows.map (fun r =>
    if r.iid = parentIid then { r with children := r.children ++ [⟨text, values⟩] }
    else r)

/-- One iteration of the insertion loop in the `hierarchy` setter (dialogs.py
lines 187-199): compute `openNode` from the length of the whole new hierarchy,
insert the parent row at the end of the top level, then insert one child row
per inner (label, value) pair under it. The accumulator carries the row list
and the next unused tk item id. -/
def TreeViewDialog.insertStep (newHierarchy : Hierarchy)
    (acc : List TreeRow × Nat) (kv : String × List (String × String)) :
    List TreeRow × Nat :=
  let openNode := if newHierarchy.length = 1 then true else false
  let rows1 := Treeview.insertTop acc.1 acc.2 kv.1 openNode
  let rows2 := kv.2.foldl
    (fun rs lv => Treeview.insertChild rs acc.2 lv.1 [lv.2]) rows1
  (rows2, acc.2 + 1)

/-- Embedding of the `hierarchy` property setter (dialogs.py lines 181-199):
delete every existing top-level item (and with it all children), then, for each
outer entry in order, insert a parent row — open iff the whole new hierarchy
has exactly one entry — followed by one child row per inner (label, value)
pair in order. `fresh` is the first unused tk item id. -/
def TreeViewDialog.hierarchySetter (rows : List TreeRow) (fresh : Nat)
    (newHierarchy : Hierarchy) : List TreeRow :=
  let cleared := Treeview.delete rows (Treeview.get_children rows)
  (newHierarchy.foldl (TreeViewDialog.insertStep newHierarchy) (cleared, fresh)).1

/-- What `TreeViewDialog.body` builds (dialogs.py lines 201-232): the tree
view's value columns (`headings[1:]`), the heading texts assigned to columns
`#0, #1, ...`, the row list (initially empty), whether a scrollbar is bound,
and whether the standalone Close button was added. -/
structure TreeViewBody where
  columns : List String
  headingTexts : List (String × String)
  rows : List TreeRow
  scrollbar : Bool
  closeButton : Bool
deriving Repr, DecidableEq

/-- Embedding of `TreeViewDialog.body` (dialogs.py lines 201-232). -/
def TreeViewDialog.body (headings : List String) (standalone : Bool) :
    TreeViewBody :=
  { columns := headings.drop 1
    headingTexts := headings.enum.map (fun p => ("#" ++ toString p.1, p.2))
    rows := []
    scrollbar := true
    closeButton := standalone }

/-- The full state of a constructed `TreeViewDialog`. -/
structure TreeViewDialogState where
  base : DialogBaseState
  headings : List String
  tv : TreeViewBody
deriving Repr, DecidableEq

/-- Embedding of `TreeViewDialog.__init__` (dialogs.py lines 159-167): store
the headings, run the base initialiser (which calls `body`), then assign the
initial hierarchy through the write-only property setter. -/
def TreeViewDialog.init (title : String) (headings : List String)
    (hierarchy : Hierarchy) (newWid : Nat)
    (parent : Option Nat) (row column : Option Int) : TreeViewDialogState :=
  let base := DialogBase.init title newWid parent row column
  let b := TreeViewDialog.body headings base.standalone
  { base := base
    headings := headings
    tv := { b with rows := TreeViewDialog.hierarchySetter b.rows 0 hierarchy } }

/-- Embedding of the `hierarchy` property getter (dialogs.py lines 169-179):
it raises `ValueError` unconditionally — the property is write-only. -/
def TreeViewDialog.hierarchyGetter (_st : TreeViewDialogState) :
    Except PyError Hierarchy :=
  .error .valueError

/-- The rows the setter produces for a hierarchy, in closed form: one parent
row per outer entry with consecutive ids from `fresh`, all sharing the open
flag `single`, each holding one child row per inner pair. -/
def renderRows (h : Hierarchy) (fresh : Nat) (single : Bool) : List TreeRow :=
  match h with
  | [] => []
  | (key, vals) :: rest =>
      { iid := fresh, text := key, openNode := single
        children := vals.map (fun lv => ⟨lv.1, [lv.2]⟩) } :: renderRows rest (fresh + 1) single

theorem Treeview.delete_get_children (rows : List TreeRow) :
    Treeview.delete rows (Treeview.get_children rows) = [] := by
  rw [List.eq_nil_iff_forall_not_mem]
  intro r hr
  have hmem := List.mem_filter.mp hr
  have hin : r.iid ∈ rows.map (·.iid) := List.mem_map_of_mem _ hmem.1
  have hcon : (rows.map (·.iid)).contains r.iid = true :=
    List.elem_eq_true_of_mem hin
  rw [Treeview.get_children, hcon] at hmem
  simp at hmem

theorem Treeview.insertChild_append_last (pre : List TreeRow) (p : Nat)
    (t : String) (o : Bool) (cs : List ChildRow) (l : String) (v : List String)
    (hpre : ∀ r ∈ pre, r.iid ≠ p) :
    Treeview.insertChild (pre ++ [⟨p, t, o, cs⟩]) p l v
      = pre ++ [⟨p, t, o, cs ++ [⟨l, v⟩]⟩] := by
  unfold Treeview.insertChild
  rw [List.map_append]
  congr 1
  · conv_rhs => rw [show pre = pre.map id from (List.map_id pre).symm]
    apply List.map_congr_left
    intro r hr
    simp [hpre r hr]
  · simp

theorem TreeViewDialog.childLoop_closed (vals : List (String × String))
    (pre : List TreeRow) (p : Nat) (t : String) (o : Bool) (cs : List ChildRow)
    (hpre : ∀ r ∈ pre, r.iid ≠ p) :
    vals.foldl (fun rs lv => Treeview.insertChild rs p lv.1 [lv.2])
        (pre ++ [⟨p, t, o, cs⟩])
      = pre ++ [⟨p, t, o, cs ++ vals.map (fun lv => ⟨lv.1, [lv.2]⟩)⟩] := by
  induction vals generalizing cs with
  | nil => simp
  | cons lv rest ih =>
      rw [List.foldl_cons,
        Treeview.insertChild_append_last pre p t o cs lv.1 [lv.2] hpre, ih]
      simp

theorem TreeViewDialog.insertLoop_closed (h : Hierarchy)
    (rest : List (String × List (String × String)))
    (pre : List TreeRow) (fresh : Nat)
    (hpre : ∀ r ∈ pre, r.iid < fresh) :
    (rest.foldl (TreeViewDialog.insertStep h) (pre, fresh)).1
      = pre ++ renderRows rest fresh (if h.length = 1 then true else false) := by
  induction rest generalizing pre fresh with
  | nil => simp [renderRows]
  | cons kv tail ih =>
      obtain ⟨key, vals⟩ := kv
      rw [List.foldl_cons]
      have hstep : TreeViewDialog.insertStep h (pre, fresh) (key, vals)
          = (pre ++ [⟨fresh, key, if h.length = 1 then true else false,
              vals.map (fun lv => ⟨lv.1, [lv.2]⟩)⟩], fresh + 1) := by
        simp only [TreeViewDialog.insertStep]
        rw [show Treeview.insertTop pre fresh key
              (if h.length = 1 then true else false)
            = pre ++ [⟨fresh, key, if h.length = 1 then true else false, []⟩]
            from rfl]
        rw [TreeViewDialog.childLoop_closed vals pre fresh key
          (if h.length = 1 then true else false) []
          (fun r hr => Nat.ne_of_lt (hpre r hr))]
        simp
      rw [hstep, ih]
      · simp [renderRows]
      · intro r hr
        rcases List.mem_append.mp hr with h1 | h2
        · exact Nat.lt_succ_of_lt (hpre r h1)
        · simp at h2
          rw [h2]
          exact Nat.lt_succ_self fresh

theorem TreeViewDialog.hierarchySetter_closed (rows : List TreeRow)
    (fresh : Nat) (h : Hierarchy) :
    TreeViewDialog.hierarchySetter rows fresh h
      = renderRows h fresh (if h.length = 1 then true else false) := by
  unfold TreeViewDialog.hierarchySetter
  rw [Treeview.delete_get_children]
  have := TreeViewDialog.insertLoop_closed h h [] fresh
    (by intro r hr; simp at hr)
  simpa using this

theorem renderRows_shape (h : Hierarchy) (fresh : Nat) (single : Bool) :
    (renderRows h fresh single).map (fun r => (r.text, r.children))
      = h.map (fun kv => (kv.1, kv.2.map (fun lv => ChildRow.mk lv.1 [lv.2]))) := by
  induction h generalizing fresh with
  | nil => simp [renderRows]
  | cons kv rest ih =>
      obtain ⟨key, vals⟩ := kv
      simp [renderRows, ih]

theorem renderRows_openNode (h : Hierarchy) (fresh : Nat) (single : Bool) :
    ∀ r ∈ renderRows h fresh single, r.openNode = single := by
  induction h generalizing fresh with
  | nil => simp [renderRows]
  | cons kv rest ih =>
      obtain ⟨key, vals⟩ := kv
      intro r hr
      rw [renderRows] at hr
      rcases List.mem_cons.mp hr with rfl | htail
      · rfl
      · exact ih (fresh + 1) r htail

theorem TreeViewDialog.init_rows (title : String) (headings : List String)
    (h : Hierarchy) (newWid : Nat) (parent : Option Nat) (row column : Option Int) :
    (TreeViewDialog.init title headings h newWid parent row column).tv.rows
      = TreeViewDialog.hierarchySetter [] 0 h := rfl

/-- C2: populating the tree dialog with a hierarchy `h` — at construction or
via the write-only setter on any previously populated row list — leaves
exactly the rows described by `h` and nothing else: one parent row per outer
key in order, one child row per inner (label, value) pair in order, each child
displaying the original mapped value, and an outer key with an empty inner
mapping yielding a parent row with no children. -/
theorem tree_populate_exact (rows : List TreeRow) (fresh : Nat) (h : Hierarchy)
    (title : String) (headings : List String) (newWid : Nat)
    (parent : Option Nat) (row column : Option Int) :
    ((TreeViewDialog.hierarchySetter rows fresh h).map (fun r => (r.text, r.children))
        = h.map (fun kv => (kv.1, kv.2.map (fun lv => ChildRow.mk lv.1 [lv.2]))))
    ∧ ((TreeViewDialog.init title headings h newWid parent row column).tv.rows.map
          (fun r => (r.text, r.children))
        = h.map (fun kv => (kv.1, kv.2.map (fun lv => ChildRow.mk lv.1 [lv.2])))) := by
  constructor
  · rw [TreeViewDialog.hierarchySetter_closed, renderRows_shape]
  · rw [TreeViewDialog.init_rows, TreeViewDialog.hierarchySetter_closed,
      renderRows_shape]

/-- C3: reading the tree dialog's `hierarchy` property, in any dialog state,
always raises `ValueError` and never returns a hierarchy: the property is
write-only. -/
theorem tree_hierarchy_write_only (st : TreeViewDialogState) :
    TreeViewDialog.hierarchyGetter st = Except.error PyError.valueError
    ∧ ∀ h : Hierarchy, TreeViewDialog.hierarchyGetter st ≠ Except.ok h := by
  refine ⟨rfl, ?_⟩
  intro h hcontra
  simp [TreeViewDialog.hierarchyGetter] at hcontra

/-- Witness for C3: the getter fails on a freshly constructed dialog. -/
theorem tree_hierarchy_write_only_witness :
    TreeViewDialog.hierarchyGetter
        (TreeViewDialog.init "Title" ["Keys", "Values"] [] 0 none none none)
      = Except.error PyError.valueError
    ∧ ∀ h : Hierarchy,
        TreeViewDialog.hierarchyGetter
            (TreeViewDialog.init "Title" ["Keys", "Values"] [] 0 none none none)
          ≠ Except.ok h :=
  tree_hierarchy_write_only
    (TreeViewDialog.init "Title" ["Keys", "Values"] [] 0 none none none)

/-- C4: every parent row produced by populating the tree with hierarchy `h` is
inserted open exactly when `h` has exactly one top-level entry; with any other
number of entries, every parent row is inserted collapsed. -/
theorem tree_expand_single_root (rows : List TreeRow) (fresh : Nat)
    (h : Hierarchy) :
    ∀ r ∈ TreeViewDialog.hierarchySetter rows fresh h,
      r.openNode = (if h.length = 1 then true else false) := by
  intro r hr
  rw [TreeViewDialog.hierarchySetter_closed] at hr
  exact renderRows_openNode h fresh _ r hr

/-- Witness for C4: a single-entry hierarchy yields its parent row open. -/
theorem tree_expand_single_root_witness :
    ({ iid := 0, text := "One", openNode := true,
        children := [⟨"A", ["1"]⟩] } : TreeRow).openNode
      = (if ([("One", [("A", "1")])] : Hierarchy).length = 1 then true else false) :=
  tree_expand_single_root [] 0 [("One", [("A", "1")])]
    { iid := 0, text := "One", openNode := true, children := [⟨"A", ["1"]⟩] }
    (by decide)

/-- C10: the tree dialog never validates the headings length: with an empty
headings list, construction still completes, the value-column slice
`headings[1:]` is empty and the heading-assignment loop performs zero
iterations. -/
theorem tree_headings_unvalidated (standalone : Bool) (title : String)
    (h : Hierarchy) (newWid : Nat) (parent : Option Nat)
    (row column : Option Int) :
    (TreeViewDialog.body [] standalone).columns = []
    ∧ (TreeViewDialog.body [] standalone).headingTexts = []
    ∧ (TreeViewDialog.init title [] h newWid parent row column).tv.columns = []
    ∧ (TreeViewDialog.init title [] h newWid parent row column).tv.headingTexts
        = [] := by
  refine ⟨rfl, ?_, rfl, ?_⟩ <;>
    simp [TreeViewDialog.body, TreeViewDialog.init, List.enum]

/-! ## `Utils/Timer.py` -/

/-- The observable execution state threaded through the Timer embedding: the
lines printed to standard output so far, and the current `time.time()`
reading. Time is measured in hundredths of a second so that two-decimal
formatting is exact. -/
structure ExecState where
  output : List String
  clock : Nat
deriving Repr, DecidableEq

/-- The outcome of a Python computation: a normal return or a raised error. -/
inductive PyResult (α : Type) where
  | ok (a : α)
  | raised (e : PyError)
deriving Repr, DecidableEq

/-- Two-decimal rendering of a duration given in hundredths of a second,
mirroring `f'{x:.2f}'` applied to an exact centisecond value. -/
def formatTwoDec (centis : Nat) : String :=
  toString (centis / 100) ++ "."
    ++ (if centis % 100 < 10 then "0" else "") ++ toString (centis % 100)

/-- The per-scope state of a `Timer`: the stored task string and the
`startTime` recorded by `__enter__`. -/
structure TimerCtx where
  taskString : String
  startTime : Nat
deriving Repr, DecidableEq

/-- Embedding of `Timer.__enter__` (Timer.py lines 24-27): print
`"{taskString}..."` and then record the current time as the start time. -/
def Timer.enterFn (taskString : String) (s : ExecState) : ExecState × TimerCtx :=
  ({ s with output := s.output ++ [taskString ++ "..."] },
    { taskString := taskString, startTime := s.clock })

/-- Embedding of `Timer.__exit__` (Timer.py lines 29-34): compute the elapsed
time, print the completion line, and return `false` — the Python method
returns `None`, which is falsy, so exceptions are never suppressed. -/
def Timer.exitFn (ctx : TimerCtx) (s : ExecState) : ExecState × Bool :=
  ({ s with
      output := s.output
        ++ [ctx.taskString ++ " took "
              ++ formatTwoDec (s.clock - ctx.startTime) ++ " seconds"] },
    false)

/-- The wrapped unit of work inside the `with` block: it advances the clock by
`advance` centiseconds, prints the lines `out`, and finishes in `res` (normal
completion or a raised error). -/
def runBody (advance : Nat) (out : List String) (res : PyResult Unit)
    (s : ExecState) : ExecState × PyResult Unit :=
  ({ output := s.output ++ out, clock := s.clock + advance }, res)

/-- Python `with`-statement semantics: run `__enter__`, then the block, then
always `__exit__`; a raised error propagates unchanged unless `__exit__`
returns a truthy value, in which case it is suppressed. -/
def pyWith {σ : Type} (enter : ExecState → ExecState × σ)
    (block : ExecState → ExecState × PyResult Unit)
    (exitFn : σ → ExecState → ExecState × Bool)
    (s : ExecState) : ExecState × PyResult Unit :=
  let p1 := enter s
  let p2 := block p1.1
  let p3 := exitFn p1.2 p2.1
  match p2.2 with
  | PyResult.ok a => (p3.1, PyResult.ok a)
  | PyResult.raised e =>
      if p3.2 then (p3.1, PyResult.ok ()) else (p3.1, PyResult.raised e)

/-- `with Timer(taskString): <work>`, where the work is `runBody advance out
res`. -/
def withTimer (taskString : String) (advance : Nat) (out : List String)
    (res : PyResult Unit) (s : ExecState) : ExecState × PyResult Unit :=
  pyWith (Timer.enterFn taskString) (runBody advance out res) Timer.exitFn s

/-- C7: for every Timer scope, the exit notification is printed on every exit
path — whether the wrapped work completes normally or raises — and a raised
failure propagates unchanged after the notification is emitted. -/
theorem timer_exit_always_fires (taskString : String) (advance : Nat)
    (out : List String) (res : PyResult Unit) (s : ExecState) :
    (withTimer taskString advance out res s).2 = res
    ∧ (withTimer taskString advance out res s).1.output
        = s.output ++ [taskString ++ "..."] ++ out
            ++ [taskString ++ " took " ++ formatTwoDec advance ++ " seconds"] := by
  cases res <;>
    simp [withTimer, pyWith, runBody, Timer.enterFn, Timer.exitFn,
      Nat.add_sub_cancel_left]

/-- C8: a Timer scope around work that prints nothing writes exactly two lines
to standard output — `"{taskString}..."` on entry and `"{taskString} took
{elapsed:.2f} seconds"` on exit — where the elapsed value is the recorded exit
time minus the recorded entry time. -/
theorem timer_two_output_lines (taskString : String) (advance : Nat)
    (res : PyResult Unit) (s : ExecState) :
    (withTimer taskString advance [] res s).1.output
      = s.output
          ++ [taskString ++ "...",
              taskString ++ " took " ++ formatTwoDec advance ++ " seconds"]
    ∧ (withTimer taskString advance [] res s).1.clock = s.clock + advance
    ∧ formatTwoDec ((withTimer taskString advance [] res s).1.clock
          - (Timer.enterFn taskString s).2.startTime)
        = formatTwoDec advance := by
  cases res <;>
    simp [withTimer, pyWith, runBody, Timer.enterFn, Timer.exitFn,
      Nat.add_sub_cancel_left]

/-! ## `DialogBase.onClose` on an embedded dialog -/

/-- C9: `onClose` destroys the recorded parent; for a dialog constructed in
embedded mode with caller parent `p`, the recorded parent is the caller's
shared container `p` itself, so closing removes the entire subtree rooted at
`p` — the dialog's frame and every sibling widget the caller placed there —
rather than only the dialog's own widget subtree. -/
theorem close_embedded_destroys_parent (title : String) (newWid p : Nat)
    (r c : Int) (dialogFrame : Widget) (siblings : List Widget) :
    ((DialogBase.init title newWid (some p) (some r) (some c)).parent
        = ParentRef.given p)
    ∧ (DialogBase.onClose (DialogBase.init title newWid (some p) (some r) (some c))
          [Widget.node p (dialogFrame :: siblings)] = []) := by
  constructor
  · rfl
  · simp [DialogBase.onClose, DialogBase.init, ParentRef.wid,
      Widget.destroyForest, Widget.destroy]

end PythonTools
